import Mathlib

/-!
Verification development for the WhatBulk bulk-messaging tool
(src/whatbulk1.py, src/whatbulk2.py).

Python strings are embedded as `List Char` (`Str`); pandas DataFrames used
as outcome tables are embedded as Lean lists of rows (timestamps omitted);
the randomness in the pacing scheduler is passed in as explicit sample
arguments; the browser session is abstracted by a per-contact behavior
record that says how the UI reacted (exceptions raised, probe result, send
result), and the per-contact traces record the order of UI steps.
-/

namespace WhatBulk

abbrev Str := List Char

/-- Python `str.isspace` characters relevant to `str.strip()`:
space, tab, newline, vertical tab, form feed, carriage return. -/
def pyIsSpace (c : Char) : Bool :=
  c = ' ' || c = '\t' || c = '\n' || c = '\x0b' || c = '\x0c' || c = '\r'

/-- Drop leading characters satisfying `p` (used for `str.strip` / `str.lstrip`). -/
def dropLeading (p : Char → Bool) : Str → Str
  | [] => []
  | c :: cs => if p c then dropLeading p cs else c :: cs

/-- Python `s.strip()`: remove leading and trailing whitespace. -/
def pyStrip (s : Str) : Str :=
  ((dropLeading pyIsSpace ((dropLeading pyIsSpace s).reverse)).reverse)

/-- Python `s.replace(x, "")` for a single character `x`: remove every occurrence. -/
def removeAll (x : Char) : Str → Str
  | [] => []
  | c :: cs => if c = x then removeAll x cs else c :: removeAll x cs

/-- Auxiliary for Python `str.split()`: `acc` holds the current token reversed. -/
def pySplitAux : Str → Str → List Str
  | [], acc => if acc = [] then [] else [acc.reverse]
  | c :: cs, acc =>
    if pyIsSpace c then
      if acc = [] then pySplitAux cs [] else acc.reverse :: pySplitAux cs []
    else
      pySplitAux cs (c :: acc)

/-- Python `s.split()`: split on whitespace runs, discarding empty tokens. -/
def pySplit (s : Str) : List Str := pySplitAux s []

/-- `Whatsapp.format_phone_number` (whatbulk1.py lines 60-66):
`number.strip().replace(" ", "")`; keep a `+`-prefixed number as is;
otherwise `lstrip('0')` when it starts with `0`, then prepend `+91`. -/
def format_phone_number (number : Str) : Str :=
  let n := removeAll ' ' (pyStrip number)
  if n.head? = some '+' then n
  else
    let n2 := if n.head? = some '0' then dropLeading (fun c => c = '0') n else n
    '+' :: '9' :: '1' :: n2

/-- `WhatsAppSender.format_number` (whatbulk2.py lines 69-75):
`number.strip().replace(" ", "").replace("-", "")`; keep a `+`-prefixed
number as is; otherwise drop a single leading `0` (`number[1:]`), then
prepend `+91`. -/
def format_number (number : Str) : Str :=
  let n := removeAll '-' (removeAll ' ' (pyStrip number))
  if n.head? = some '+' then n
  else
    let n2 := if n.head? = some '0' then n.tail else n
    '+' :: '9' :: '1' :: n2

/-- The fallback greeting `"there"`. -/
def thereStr : Str := "there".toList

/-- `Whatsapp.extract_greeting_name` (whatbulk1.py lines 68-76) on a string
argument: `"there"` for a whitespace-only name; otherwise the first token
of `full_name.strip().split()`, except that when that token has length ≤ 2
and a second token exists the second token is returned. -/
def extract_greeting_name (full_name : Str) : Str :=
  if pyStrip full_name = [] then thereStr
  else
    let tokens := pySplit (pyStrip full_name)
    match tokens with
    | [] => thereStr
    | t :: rest =>
      if t.length ≤ 2 ∧ rest ≠ [] then rest.headD [] else t

/-- `WhatsAppSender.get_greeting_name` (whatbulk2.py lines 78-82) on a string
argument: `"there"` for a whitespace-only name; otherwise
`parts[0] if len(parts[0]) > 2 else (parts[1] if len(parts) > 1 else "there")`.
(`parts` is nonempty whenever the stripped name is nonempty, so the `headD`
default is never used.) -/
def get_greeting_name (full_name : Str) : Str :=
  if pyStrip full_name = [] then thereStr
  else
    let parts := pySplit (pyStrip full_name)
    let p0 := parts.headD []
    if p0.length > 2 then p0
    else if parts.length > 1 then parts.getD 1 [] else thereStr

/-- The `isinstance(full_name, str)` guard of `extract_greeting_name`:
a non-string input (`none`) yields `"there"`. -/
def extract_greeting_name_any : Option Str → Str
  | none => thereStr
  | some s => extract_greeting_name s

/-- The `isinstance(full_name, str)` guard of `get_greeting_name`:
a non-string input (`none`) yields `"there"`. -/
def get_greeting_name_any : Option Str → Str
  | none => thereStr
  | some s => get_greeting_name s

/-- The default message template returned when a message file is missing
(whatbulk1.py lines 48-58, whatbulk2.py lines 57-66). -/
def defaultTemplate : Str := "Hello \x7bfirst_name\x7d, this is a default message.".toList

/-- `load_message_template` (whatbulk1.py lines 48-58, whatbulk2.py lines
57-66). The file system is abstracted as a partial map from file name to
file content; an existing file's content is read and stripped, a missing
file (whatbulk1: `os.path.exists` is false; whatbulk2: `FileNotFoundError`)
yields the fixed default template instead of an exception. -/
def load_message_template (fs : Str → Option Str) (file_name : Str) : Str :=
  match fs file_name with
  | some content => pyStrip content
  | none => defaultTemplate

/-- The `message_templates` list built in both constructors: one template
per configured message file, each loaded with `load_message_template`. -/
def message_templates (fs : Str → Option Str) (files : List Str) : List Str :=
  files.map (load_message_template fs)

/-! ### Pacing scheduler (`randomized_delay`) -/

/-- The mutable pacing fields of both classes: `message_count` and
`random_break_threshold`. -/
structure PacingState where
  message_count : Nat
  random_break_threshold : Nat
  deriving DecidableEq

/-- `randomized_delay` (whatbulk1.py lines 109-119, whatbulk2.py lines
124-134), with the sleeps erased and the `random.randint` resample passed
in as `sample` (it is only used when the cooldown fires). Increments
`message_count`; when it reaches `random_break_threshold`, takes the long
cooldown, resets the counter to 0 and installs the freshly sampled
threshold. Returns the new state and whether the cooldown fired. -/
def randomized_delay (st : PacingState) (sample : Nat) : PacingState × Bool :=
  let count := st.message_count + 1
  if st.random_break_threshold ≤ count then
    (⟨0, sample⟩, true)
  else
    (⟨count, st.random_break_threshold⟩, false)

/-- `n` successive calls to `randomized_delay`; `samples i` is the value
`random.randint` would return at call `i` (counting from 0) were the
cooldown to fire there. Returns the final state and the list of
cooldown-fired flags in call order. -/
def runDelays : PacingState → (Nat → Nat) → Nat → PacingState × List Bool
  | st, _, 0 => (st, [])
  | st, samples, n + 1 =>
    let r := randomized_delay st (samples 0)
    let rest := runDelays r.1 (fun i => samples (i + 1)) n
    (rest.1, r.2 :: rest.2)

/-! ### Locator fallback (`find_send_button`) -/

/-- What one locator strategy's bounded wait did: produced a clickable
element, timed out (`TimeoutException`), raised `NoSuchElementException`,
or raised some other exception (e.g. `UnexpectedAlertPresentException`). -/
inductive StratResult (α : Type) where
  | found (e : α)
  | timeout
  | noSuchElement
  | raised (msg : Str)
  deriving DecidableEq

/-- `find_send_button` (whatbulk1.py lines 121-148, whatbulk2.py lines
137-155): try each strategy in order; `TimeoutException` and
`NoSuchElementException` are swallowed and the next strategy is tried; any
other exception propagates (`Except.error`); a found element is returned
at once; when every strategy fails the result is `none`, a normal return
value. The second component counts how many strategies were attempted. -/
def find_send_button {α : Type} : List (StratResult α) → Except Str (Option α × Nat)
  | [] => Except.ok (none, 0)
  | r :: rs =>
    match r with
    | StratResult.found e => Except.ok (some e, 1)
    | StratResult.timeout =>
      (find_send_button rs).map (fun p => (p.1, p.2 + 1))
    | StratResult.noSuchElement =>
      (find_send_button rs).map (fun p => (p.1, p.2 + 1))
    | StratResult.raised m => Except.error m

/-- The XPath ladder of `WhatsAppSender.find_send_button`
(whatbulk2.py lines 138-144), in source order. -/
def xpath_strategies : List Str :=
  ["//button[@aria-label=\x27Send\x27]".toList,
   "//button[@data-testid=\x27compose-btn-send\x27]".toList,
   "//span[@data-icon=\x27send\x27]".toList,
   "//button[contains(@class, \x27send\x27)]".toList,
   "//div[@contenteditable=\x27true\x27]".toList]

/-! ### Per-contact state machine (`handle_contact`) and batch loop -/

/-- The status strings returned by `WhatsAppSender.handle_contact`:
`"success"`, `"invalid"`, `"failed"`, `"error"` (the error carries the
exception text used for the failed-numbers row). -/
inductive Status where
  | success
  | invalid
  | failed
  | error (msg : Str)
  deriving DecidableEq

/-- How the browser session reacts while one contact is processed:
`openFails` — an exception while opening the chat tab or waiting for the
message box; `probeRaises` — a non-timeout exception inside the
invalid-number probe; `invalidDetected` — the probe found the
invalid-number indicator; `sendRaises` — an exception escaping the send
step (e.g. from `find_send_button` inside `send_text_message`);
`sendOk` — the send step's boolean result when it returns normally. -/
structure ContactBehavior where
  openFails : Option Str
  probeRaises : Option Str
  invalidDetected : Bool
  sendRaises : Option Str
  sendOk : Bool
  deriving DecidableEq

/-- The observable UI steps of one contact's processing, in order. -/
inductive Event where
  | openChat
  | probeInvalid
  | sendAttempt
  | cleanup
  deriving DecidableEq

/-- The three per-category DataFrames of `WhatsAppSender`
(whatbulk2.py lines 42-44): `sent` rows are `(number, name)`, `invalid`
and `failed` rows are `(number, name, error)`; timestamps are omitted. -/
structure SenderState where
  sent_numbers_df : List (Str × Str)
  invalid_numbers_df : List (Str × Str × Str)
  failed_numbers_df : List (Str × Str × Str)
  deriving DecidableEq

/-- The empty tables the constructor starts with. -/
def initialSenderState : SenderState := ⟨[], [], []⟩

/-- `WhatsAppSender.add_contact_result` (whatbulk2.py lines 252-260):
append one row (`pd.concat` with `ignore_index=True`). -/
def add_contact_result {ρ : Type} (df : List ρ) (row : ρ) : List ρ := df ++ [row]

/-- `WhatsAppSender.handle_contact` (whatbulk2.py lines 263-313) as a
function of the session's behavior `b` for this contact. Control flow of
the source: the `try` body opens the chat (an exception → `except` →
status `"error"`, a failed row with the exception text); then
`is_invalid_number` (a non-timeout exception → `"error"`; detection →
an invalid row and `"invalid"`); then the send step (an escaping
exception → `"error"`; `True` → a sent row and `"success"`; `False` →
a failed row `"Failed to send"` and `"failed"`). The `finally` block
closes the tab on every path. Returns the status, the updated tables and
the trace of UI steps. -/
def handle_contact (b : ContactBehavior) (number name : Str) (s : SenderState) :
    Status × SenderState × List Event :=
  match b.openFails with
  | some e =>
    (Status.error e,
     { s with failed_numbers_df := add_contact_result s.failed_numbers_df (number, name, e) },
     [Event.openChat, Event.cleanup])
  | none =>
    match b.probeRaises with
    | some e =>
      (Status.error e,
       { s with failed_numbers_df := add_contact_result s.failed_numbers_df (number, name, e) },
       [Event.openChat, Event.probeInvalid, Event.cleanup])
    | none =>
      if b.invalidDetected then
        (Status.invalid,
         { s with invalid_numbers_df :=
             add_contact_result s.invalid_numbers_df (number, name, "Invalid number".toList) },
         [Event.openChat, Event.probeInvalid, Event.cleanup])
      else
        match b.sendRaises with
        | some e =>
          (Status.error e,
           { s with failed_numbers_df := add_contact_result s.failed_numbers_df (number, name, e) },
           [Event.openChat, Event.probeInvalid, Event.sendAttempt, Event.cleanup])
        | none =>
          if b.sendOk then
            (Status.success,
             { s with sent_numbers_df := add_contact_result s.sent_numbers_df (number, name) },
             [Event.openChat, Event.probeInvalid, Event.sendAttempt, Event.cleanup])
          else
            (Status.failed,
             { s with failed_numbers_df :=
                 add_contact_result s.failed_numbers_df (number, name, "Failed to send".toList) },
             [Event.openChat, Event.probeInvalid, Event.sendAttempt, Event.cleanup])

/-- The status `handle_contact` assigns for a given session behavior
(it depends only on the behavior, see `handle_contact_status`). -/
def statusOf (b : ContactBehavior) : Status :=
  (handle_contact b [] [] initialSenderState).1

/-- The body of the whatbulk1.py batch loop (lines 242-279) for one row,
as a function of the session's behavior. Differences from
`handle_contact`: `send_message` (whatbulk1.py lines 180-205) catches
every exception itself and returns `False`, so an exception in the send
step is recorded as `"Send failed"`, not as an error; the `except` branch
closes the tab inside a nested `try`. The tab is closed on every path. -/
def wb1_loop_body (b : ContactBehavior) : Status × List Event :=
  match b.openFails with
  | some e => (Status.error e, [Event.openChat, Event.cleanup])
  | none =>
    match b.probeRaises with
    | some e => (Status.error e, [Event.openChat, Event.probeInvalid, Event.cleanup])
    | none =>
      if b.invalidDetected then
        (Status.invalid, [Event.openChat, Event.probeInvalid, Event.cleanup])
      else
        match b.sendRaises with
        | some _ =>
          (Status.failed, [Event.openChat, Event.probeInvalid, Event.sendAttempt, Event.cleanup])
        | none =>
          if b.sendOk then
            (Status.success, [Event.openChat, Event.probeInvalid, Event.sendAttempt, Event.cleanup])
          else
            (Status.failed, [Event.openChat, Event.probeInvalid, Event.sendAttempt, Event.cleanup])

/-- `WhatsAppSender.process_contacts` (whatbulk2.py lines 316-340):
iterate the rows in order; for row `(rawNumber, name)` format the number,
run `handle_contact`, and append `(number, name, status)` to the results
list. `env k` is the session's behavior for the row at overall index `k`;
`i` is the index of the first row of `contacts`. Returns the master
results list and the final per-category tables. -/
def process_contacts :
    List (Str × Str) → (Nat → ContactBehavior) → Nat → SenderState →
    List (Str × Str × Status) × SenderState
  | [], _, _, s => ([], s)
  | (rawNumber, name) :: rest, env, i, s =>
    let number := format_number rawNumber
    let r := handle_contact (env i) number name s
    let rec_ := process_contacts rest env (i + 1) r.2.1
    ((number, name, r.1) :: rec_.1, rec_.2)

/-- Generic index-aware map, used to state that the batch results are a
pointwise function of the input rows. -/
def mapFrom {α β : Type} (f : Nat → α → β) : Nat → List α → List β
  | _, [] => []
  | i, a :: as => f i a :: mapFrom f (i + 1) as

/-! ### Derived-partition specification (the spec's view of the tables)

The spec says the per-category tables are *derived* from the master
outcome log. These projections express, per master-log entry, the row the
category table should hold for it; the derived table is the `filterMap`. -/

/-- Spec-side: the sent-table row derived from one master-log entry. -/
def sentRowOf : Str × Str × Status → Option (Str × Str)
  | (n, m, Status.success) => some (n, m)
  | _ => none

/-- Spec-side: the invalid-table row derived from one master-log entry. -/
def invalidRowOf : Str × Str × Status → Option (Str × Str × Str)
  | (n, m, Status.invalid) => some (n, m, "Invalid number".toList)
  | _ => none

/-- Spec-side: the failed-table row derived from one master-log entry
(both `failed` and `error` outcomes are recorded there by the code). -/
def failedRowOf : Str × Str × Status → Option (Str × Str × Str)
  | (n, m, Status.failed) => some (n, m, "Failed to send".toList)
  | (n, m, Status.error e) => some (n, m, e)
  | _ => none

/-! ## Helper lemmas -/

lemma dropLeading_zero_eq (l : Str) :
    dropLeading (fun c => c = '0') l = l.dropWhile (fun c => c == '0') := by
  induction l with
  | nil => rfl
  | cons c cs ih =>
    by_cases h : c = '0'
    · simp [dropLeading, List.dropWhile_cons, h, ih]
    · simp [dropLeading, List.dropWhile_cons, h]

lemma take_one_head (l : Str) (a : Char) : l.take 1 = [a] ↔ l.head? = some a := by
  cases l <;> simp

lemma dropWhile_of_head_ne (l : Str) (h : l.head? ≠ some '0') :
    l.dropWhile (fun c => c == '0') = l := by
  cases l with
  | nil => rfl
  | cons c cs =>
    have hc : c ≠ '0' := by
      intro hc
      exact h (by simp [hc])
    simp [List.dropWhile_cons, hc]

/-! ## Claims -/

/-- C1 (corrected), counterexample: the claim says a *single* leading `0`
is stripped, but `Whatsapp.format_phone_number` uses `lstrip('0')`, which
strips every leading zero: on `"0098765"` the code yields `"+9198765"`,
not `"+91098765"` as the claim requires. -/
theorem C1_counterexample :
    format_phone_number "0098765".toList = "+9198765".toList ∧
    format_phone_number "0098765".toList ≠ "+91098765".toList := by
  decide

/-- C1 (amended): after cleaning (strip, remove spaces; whatbulk2 also
removes hyphens), a `+`-prefixed string is returned unchanged; otherwise
`WhatsAppSender.format_number` strips a single leading `0` while
`Whatsapp.format_phone_number` strips *all* leading zeros; then `+91` is
prepended. The three example mappings hold in both implementations. -/
theorem C1_amended :
    (∀ number : Str,
      ((removeAll ' ' (pyStrip number)).take 1 = ['+'] →
        format_phone_number number = removeAll ' ' (pyStrip number)) ∧
      ((removeAll ' ' (pyStrip number)).take 1 ≠ ['+'] →
        format_phone_number number
          = "+91".toList ++ (removeAll ' ' (pyStrip number)).dropWhile (fun c => c == '0'))) ∧
    (∀ number : Str,
      ((removeAll '-' (removeAll ' ' (pyStrip number))).take 1 = ['+'] →
        format_number number = removeAll '-' (removeAll ' ' (pyStrip number))) ∧
      ((removeAll '-' (removeAll ' ' (pyStrip number))).take 1 = ['0'] →
        format_number number
          = "+91".toList ++ (removeAll '-' (removeAll ' ' (pyStrip number))).drop 1) ∧
      ((removeAll '-' (removeAll ' ' (pyStrip number))).take 1 ≠ ['+'] →
       (removeAll '-' (removeAll ' ' (pyStrip number))).take 1 ≠ ['0'] →
        format_number number = "+91".toList ++ removeAll '-' (removeAll ' ' (pyStrip number)))) ∧
    format_phone_number "09876543210".toList = "+919876543210".toList ∧
    format_number "09876543210".toList = "+919876543210".toList ∧
    format_phone_number "+19995551234".toList = "+19995551234".toList ∧
    format_number "+19995551234".toList = "+19995551234".toList ∧
    format_phone_number " 98765 43210".toList = "+919876543210".toList ∧
    format_number " 98765 43210".toList = "+919876543210".toList := by
  refine ⟨?_, ?_, by decide, by decide, by decide, by decide, by decide, by decide⟩
  · intro number
    constructor
    · intro h
      rw [take_one_head] at h
      simp [format_phone_number, h]
    · intro h
      rw [Ne, take_one_head] at h
      by_cases h0 : (removeAll ' ' (pyStrip number)).head? = some '0'
      · simp [format_phone_number, h, h0, dropLeading_zero_eq]
      · rw [dropWhile_of_head_ne _ h0]
        simp [format_phone_number, h, h0]
  · intro number
    refine ⟨?_, ?_, ?_⟩
    · intro h
      rw [take_one_head] at h
      simp [format_number, h]
    · intro h
      rw [take_one_head] at h
      have hne : (removeAll '-' (removeAll ' ' (pyStrip number))).head? ≠ some '+' := by
        simp [h]
      simp [format_number, h, hne, List.drop_one]
    · intro h h0
      rw [Ne, take_one_head] at h h0
      simp [format_number, h, h0]

/-- C1 witness: the amended theorem applied at concrete inputs. -/
theorem C1_amended_witness :
    format_phone_number "0098765".toList
      = "+91".toList ++ ((removeAll ' ' (pyStrip "0098765".toList)).dropWhile (fun c => c == '0')) ∧
    format_number "+1 999".toList = removeAll '-' (removeAll ' ' (pyStrip "+1 999".toList)) :=
  ⟨(C1_amended.1 "0098765".toList).2 (by decide),
   (C1_amended.2.1 "+1 999".toList).1 (by decide)⟩

/-- C2 (corrected), counterexample: the claim says the first token is
returned when it is short and no second token exists, but
`WhatsAppSender.get_greeting_name` returns `"there"` for the single
two-character token `"Al"` instead of `"Al"`. -/
theorem C2_counterexample :
    get_greeting_name "Al".toList = "there".toList ∧
    get_greeting_name "Al".toList ≠ "Al".toList := by
  decide

/-- C2 (amended): on the whitespace-token list of the stripped name, both
functions return the first token when it is longer than two characters,
and the second token when the first has length ≤ 2 and a second exists;
with no tokens both return `"there"`; when the only token has length ≤ 2,
`Whatsapp.extract_greeting_name` returns that token (as the claim states)
but `WhatsAppSender.get_greeting_name` returns `"there"`. A non-string
name yields `"there"`, and the claim's examples hold for both. -/
theorem C2_amended :
    (∀ full_name : Str, pySplit (pyStrip full_name) = [] →
      extract_greeting_name full_name = thereStr ∧
      get_greeting_name full_name = thereStr) ∧
    (∀ (full_name t : Str), pySplit (pyStrip full_name) = [t] →
      extract_greeting_name full_name = t ∧
      (2 < t.length → get_greeting_name full_name = t) ∧
      (t.length ≤ 2 → get_greeting_name full_name = thereStr)) ∧
    (∀ (full_name t u : Str) (r : List Str), pySplit (pyStrip full_name) = t :: u :: r →
      (t.length ≤ 2 →
        extract_greeting_name full_name = u ∧ get_greeting_name full_name = u) ∧
      (2 < t.length →
        extract_greeting_name full_name = t ∧ get_greeting_name full_name = t)) ∧
    extract_greeting_name_any none = thereStr ∧
    get_greeting_name_any none = thereStr ∧
    extract_greeting_name "Dr Mehta".toList = "Mehta".toList ∧
    get_greeting_name "Dr Mehta".toList = "Mehta".toList ∧
    extract_greeting_name "Ravi Kumar".toList = "Ravi".toList ∧
    get_greeting_name "Ravi Kumar".toList = "Ravi".toList ∧
    extract_greeting_name "".toList = thereStr ∧
    get_greeting_name "".toList = thereStr := by
  refine ⟨?_, ?_, ?_, rfl, rfl, by decide, by decide, by decide, by decide,
    by decide, by decide⟩
  · intro fn h
    by_cases hs : pyStrip fn = []
    · constructor
      · simp [extract_greeting_name, hs]
      · simp [get_greeting_name, hs]
    · constructor
      · simp [extract_greeting_name, hs, h]
      · simp [get_greeting_name, hs, h]
  · intro fn t h
    by_cases hs : pyStrip fn = []
    · rw [hs] at h
      simp [pySplit, pySplitAux] at h
    · refine ⟨?_, ?_, ?_⟩
      · simp [extract_greeting_name, hs, h]
      · intro hlen
        simp [get_greeting_name, hs, h, hlen]
      · intro hlen
        simp [get_greeting_name, hs, h, Nat.not_lt.mpr hlen]
  · intro fn t u r h
    by_cases hs : pyStrip fn = []
    · rw [hs] at h
      simp [pySplit, pySplitAux] at h
    · constructor
      · intro hle
        constructor
        · simp [extract_greeting_name, hs, h, hle]
        · simp [get_greeting_name, hs, h, Nat.not_lt.mpr hle]
      · intro hlt
        constructor
        · simp [extract_greeting_name, hs, h, Nat.not_le.mpr hlt]
        · simp [get_greeting_name, hs, h, hlt]

/-- C2 witness: the amended theorem applied at the inputs `"Al"` and
`"Dr Mehta"`. -/
theorem C2_amended_witness :
    extract_greeting_name "Al".toList = "Al".toList ∧
    get_greeting_name "Al".toList = thereStr ∧
    extract_greeting_name "Dr Mehta".toList = "Mehta".toList ∧
    get_greeting_name "Dr Mehta".toList = "Mehta".toList :=
  ⟨(C2_amended.2.1 "Al".toList "Al".toList (by decide)).1,
   (C2_amended.2.1 "Al".toList "Al".toList (by decide)).2.2 (by decide),
   ((C2_amended.2.2.1 "Dr Mehta".toList "Dr".toList "Mehta".toList [] (by decide)).1
      (by decide)).1,
   ((C2_amended.2.2.1 "Dr Mehta".toList "Dr".toList "Mehta".toList [] (by decide)).1
      (by decide)).2⟩

lemma handle_contact_fst (b : ContactBehavior) (number name : Str) (s : SenderState) :
    (handle_contact b number name s).1 = statusOf b := by
  rcases b with ⟨o, p, inv, sr, so⟩
  cases o <;> cases p <;> cases inv <;> cases sr <;> cases so <;> rfl

lemma mapFrom_length {α β : Type} (f : Nat → α → β) (i : Nat) (l : List α) :
    (mapFrom f i l).length = l.length := by
  induction l generalizing i with
  | nil => rfl
  | cons a as ih => simp [mapFrom, ih]

lemma process_contacts_fst (contacts : List (Str × Str)) (env : Nat → ContactBehavior)
    (i : Nat) (s : SenderState) :
    (process_contacts contacts env i s).1
      = mapFrom (fun k c => (format_number c.1, c.2, statusOf (env k))) i contacts := by
  induction contacts generalizing i s with
  | nil => rfl
  | cons c rest ih =>
    rcases c with ⟨num, name⟩
    simp [process_contacts, mapFrom, handle_contact_fst, ih]

/-- C3 (confirmed): a completed batch run yields exactly one outcome per
input contact — the master results list is the pointwise image of the
input rows (formatted number, name, and a status determined by that
contact's session behavior alone), hence it has the inputs' length and
order; and every kind of per-contact exception (while opening, probing,
or sending) becomes an `error` outcome for that contact instead of
aborting the run — this holds even when every contact fails. -/
theorem C3_batch_outcomes (contacts : List (Str × Str)) (env : Nat → ContactBehavior)
    (s : SenderState) :
    (process_contacts contacts env 0 s).1
      = mapFrom (fun k c => (format_number c.1, c.2, statusOf (env k))) 0 contacts ∧
    (process_contacts contacts env 0 s).1.length = contacts.length ∧
    (∀ e pr inv sr so, statusOf ⟨some e, pr, inv, sr, so⟩ = Status.error e) ∧
    (∀ e inv sr so, statusOf ⟨none, some e, inv, sr, so⟩ = Status.error e) ∧
    (∀ e so, statusOf ⟨none, none, false, some e, so⟩ = Status.error e) := by
  refine ⟨process_contacts_fst contacts env 0 s, ?_, ?_, ?_, ?_⟩
  · rw [process_contacts_fst, mapFrom_length]
  · intro e pr inv sr so
    rfl
  · intro e inv sr so
    rfl
  · intro e so
    cases so <;> rfl

lemma runDelays_succ (st : PacingState) (samples : Nat → Nat) (n : Nat) :
    runDelays st samples (n + 1)
      = ((runDelays (randomized_delay st (samples 0)).1 (fun i => samples (i + 1)) n).1,
         (randomized_delay st (samples 0)).2
           :: (runDelays (randomized_delay st (samples 0)).1 (fun i => samples (i + 1)) n).2) :=
  rfl

lemma runDelays_fire : ∀ (k : Nat) (samples : Nat → Nat) (c T : Nat), c + k + 1 = T →
    runDelays ⟨c, T⟩ samples (k + 1) = (⟨0, samples k⟩, List.replicate k false ++ [true]) := by
  intro k
  induction k with
  | zero =>
    intro samples c T h
    have hT : T ≤ c + 1 := by omega
    simp [runDelays, randomized_delay, hT]
  | succ k ih =>
    intro samples c T h
    have hT : ¬ (T ≤ c + 1) := by omega
    have hr : randomized_delay ⟨c, T⟩ (samples 0) = (⟨c + 1, T⟩, false) := by
      simp [randomized_delay, hT]
    rw [runDelays_succ, hr, ih (fun i => samples (i + 1)) (c + 1) T (by omega)]
    simp [List.replicate_succ]

/-- C4 (corrected), counterexample: with the threshold 10 (drawn from the
configured range 10–15) and the counter at zero, the long cooldown fires
on the 10th call to `randomized_delay`, not on the 11th as the claim
("after exactly `threshold` calls, the next call triggers") requires. -/
theorem C4_counterexample :
    (runDelays ⟨0, 10⟩ (fun _ => 10) 11).2
      = [false, false, false, false, false, false, false, false, false, true, false] ∧
    ¬ ((runDelays ⟨0, 10⟩ (fun _ => 10) 11).2
      = [false, false, false, false, false, false, false, false, false, false, true]) := by
  decide

/-- C4 (amended): for every threshold value `T ≥ 1` and counter starting
at zero, the first `T - 1` calls to `randomized_delay` fire no cooldown
and the `T`-th call triggers the long cooldown, resets the counter to 0,
and installs the freshly sampled threshold. -/
theorem C4_amended (T : Nat) (samples : Nat → Nat) (h : 1 ≤ T) :
    runDelays ⟨0, T⟩ samples T
      = (⟨0, samples (T - 1)⟩, List.replicate (T - 1) false ++ [true]) := by
  obtain ⟨k, rfl⟩ : ∃ k, T = k + 1 := ⟨T - 1, by omega⟩
  simpa using runDelays_fire k samples 0 (k + 1) (by omega)

/-- C4 witness: the amended theorem at threshold 10, resample value 7. -/
theorem C4_amended_witness :
    runDelays ⟨0, 10⟩ (fun _ => 7) 10 = (⟨0, 7⟩, List.replicate 9 false ++ [true]) := by
  simpa using C4_amended 10 (fun _ => 7) (by decide)

/-- C5 (confirmed): immediately after `randomized_delay` returns, the
counter is strictly below the threshold (given that sampled thresholds
are at least 1, as the configured range guarantees); the counter is 0
exactly when the cooldown fired; and a firing with a fresh threshold of
at least 2 cannot be followed by a cooldown on the very next call — one
cooldown per threshold crossing. -/
theorem C5_pacing_invariant (st : PacingState) (sample : Nat) (h : 1 ≤ sample) :
    (randomized_delay st sample).1.message_count
        < (randomized_delay st sample).1.random_break_threshold ∧
    ((randomized_delay st sample).2 = true ↔ (randomized_delay st sample).1.message_count = 0) ∧
    ((randomized_delay st sample).2 = true → 2 ≤ sample →
      ∀ next, (randomized_delay (randomized_delay st sample).1 next).2 = false) := by
  by_cases hc : st.random_break_threshold ≤ st.message_count + 1
  · refine ⟨?_, ?_, ?_⟩
    · simp [randomized_delay, hc]
      omega
    · simp [randomized_delay, hc]
    · intro _ h2 next
      have h1 : ¬ (sample ≤ 0 + 1) := by omega
      simp [randomized_delay, hc, h1]
  · refine ⟨?_, ?_, ?_⟩
    · simp [randomized_delay, hc]
      omega
    · simp [randomized_delay, hc]
    · intro hfired
      simp [randomized_delay, hc] at hfired


/-- C5 witness: the invariant theorem at state ⟨3, 4⟩ with sample 12
(the call fires the cooldown, the second call does not). -/
theorem C5_pacing_invariant_witness :
    (randomized_delay ⟨3, 4⟩ 12).1.message_count
        < (randomized_delay ⟨3, 4⟩ 12).1.random_break_threshold ∧
    ((randomized_delay ⟨3, 4⟩ 12).2 = true ↔ (randomized_delay ⟨3, 4⟩ 12).1.message_count = 0) ∧
    (randomized_delay (randomized_delay ⟨3, 4⟩ 12).1 9).2 = false :=
  ⟨(C5_pacing_invariant ⟨3, 4⟩ 12 (by decide)).1,
   (C5_pacing_invariant ⟨3, 4⟩ 12 (by decide)).2.1,
   (C5_pacing_invariant ⟨3, 4⟩ 12 (by decide)).2.2 (by decide) (by decide) 9⟩


/-- C6 (confirmed): `find_send_button` tries the strategies strictly in
list order; the first strategy that succeeds determines the result and
the attempt counter shows no later strategy is attempted (and none is
retried: strategy `k` succeeding means exactly `k + 1` attempts); only
timeouts and not-found failures are swallowed, any other exception
propagates immediately; and when every strategy fails the result is the
normal value `none`, not an exception. -/
theorem C6_locator_fallback {α : Type} (pre post : List (StratResult α)) (e : α) (m : Str)
    (hpre : ∀ r ∈ pre, r = StratResult.timeout ∨ r = StratResult.noSuchElement) :
    find_send_button (pre ++ StratResult.found e :: post) = Except.ok (some e, pre.length + 1) ∧
    find_send_button pre = Except.ok (none, pre.length) ∧
    find_send_button (pre ++ StratResult.raised m :: post) = Except.error m := by
  induction pre with
  | nil => exact ⟨rfl, rfl, rfl⟩
  | cons r rs ih =>
    have hr := hpre r (List.mem_cons_self r rs)
    have ih2 := ih (fun x hx => hpre x (List.mem_cons_of_mem r hx))
    rcases hr with hr | hr <;> subst hr <;>
      simp [find_send_button, ih2.1, ih2.2.1, ih2.2.2, Except.map]

/-- C6 witness: the fallback theorem at a concrete ladder of strategy
results (two swallowed failures before the outcome). -/
theorem C6_locator_fallback_witness :
    find_send_button
        [StratResult.timeout, StratResult.noSuchElement, StratResult.found 42,
         StratResult.timeout]
      = Except.ok (some 42, 3) ∧
    find_send_button [(StratResult.timeout : StratResult Nat), StratResult.noSuchElement]
      = Except.ok (none, 2) ∧
    find_send_button
        [(StratResult.timeout : StratResult Nat), StratResult.noSuchElement,
         StratResult.raised "no send button".toList, StratResult.timeout]
      = Except.error "no send button".toList := by
  have h := C6_locator_fallback [StratResult.timeout, StratResult.noSuchElement]
      [StratResult.timeout] 42 "no send button".toList (by decide)
  exact ⟨h.1, h.2.1, h.2.2⟩

/-- C7 (confirmed): in `WhatsAppSender.handle_contact` (and in the
whatbulk1 batch-loop body) the invalid-number probe runs before any send
attempt: the only trace containing a send attempt is
open-probe-send-cleanup; when the probe detects the invalid-number
indicator the contact ends `invalid` and no send step ever runs; when the
probe passes (times out) without an exception, processing proceeds to the
send step. -/
theorem C7_validity_before_send (b : ContactBehavior) (number name : Str) (s : SenderState) :
    (Event.sendAttempt ∈ (handle_contact b number name s).2.2 →
      (handle_contact b number name s).2.2
        = [Event.openChat, Event.probeInvalid, Event.sendAttempt, Event.cleanup]) ∧
    (b.openFails = none → b.probeRaises = none → b.invalidDetected = true →
      (handle_contact b number name s).1 = Status.invalid ∧
      Event.sendAttempt ∉ (handle_contact b number name s).2.2) ∧
    (b.openFails = none → b.probeRaises = none → b.invalidDetected = false →
      Event.sendAttempt ∈ (handle_contact b number name s).2.2) ∧
    (Event.sendAttempt ∈ (wb1_loop_body b).2 →
      (wb1_loop_body b).2
        = [Event.openChat, Event.probeInvalid, Event.sendAttempt, Event.cleanup]) ∧
    (b.openFails = none → b.probeRaises = none → b.invalidDetected = true →
      (wb1_loop_body b).1 = Status.invalid ∧
      Event.sendAttempt ∉ (wb1_loop_body b).2) := by
  rcases b with ⟨o, p, inv, sr, so⟩
  cases o <;> cases p <;> cases inv <;> cases sr <;> cases so <;>
    refine ⟨?_, ?_, ?_, ?_, ?_⟩ <;> intros <;> simp_all [handle_contact, wb1_loop_body]

/-- C7 witness: the ordering theorem at two concrete behaviors (probe
detects the invalid indicator; probe passes and sending proceeds). -/
theorem C7_validity_before_send_witness :
    ((handle_contact ⟨none, none, true, none, false⟩ [] [] initialSenderState).1
        = Status.invalid ∧
      Event.sendAttempt ∉
        (handle_contact ⟨none, none, true, none, false⟩ [] [] initialSenderState).2.2) ∧
    Event.sendAttempt ∈
      (handle_contact ⟨none, none, false, none, true⟩ [] [] initialSenderState).2.2 ∧
    (handle_contact ⟨none, none, false, none, true⟩ [] [] initialSenderState).2.2
      = [Event.openChat, Event.probeInvalid, Event.sendAttempt, Event.cleanup] :=
  ⟨(C7_validity_before_send ⟨none, none, true, none, false⟩ [] [] initialSenderState).2.1
      rfl rfl rfl,
   (C7_validity_before_send ⟨none, none, false, none, true⟩ [] [] initialSenderState).2.2.1
      rfl rfl rfl,
   (C7_validity_before_send ⟨none, none, false, none, true⟩ [] [] initialSenderState).1
      ((C7_validity_before_send ⟨none, none, false, none, true⟩ [] [] initialSenderState).2.2.1
        rfl rfl rfl)⟩



/-- C8 (confirmed): the cleanup step (close the per-contact tab, switch
back to the main tab) appears exactly once, as the final step, in the
trace of every exit path of `WhatsAppSender.handle_contact` (the `finally`
block) and of the whatbulk1 batch-loop body — whatever the outcome — and a
batch run over a single contact yields exactly one terminal outcome. -/
theorem C8_cleanup_always_runs (b : ContactBehavior) (number name : Str) (s : SenderState)
    (env : Nat → ContactBehavior) (c : Str × Str) :
    ((handle_contact b number name s).2.2).count Event.cleanup = 1 ∧
    ((handle_contact b number name s).2.2).getLast? = some Event.cleanup ∧
    ((wb1_loop_body b).2).count Event.cleanup = 1 ∧
    ((wb1_loop_body b).2).getLast? = some Event.cleanup ∧
    (process_contacts [c] env 0 s).1.length = 1 := by
  rcases b with ⟨o, p, inv, sr, so⟩
  rcases c with ⟨num, name2⟩
  cases o <;> cases p <;> cases inv <;> cases sr <;> cases so <;>
    exact ⟨rfl, rfl, rfl, rfl, rfl⟩

lemma handle_contact_dfs (b : ContactBehavior) (number name : Str) (s : SenderState) :
    (handle_contact b number name s).2.1.sent_numbers_df
      = s.sent_numbers_df
          ++ (sentRowOf (number, name, (handle_contact b number name s).1)).toList ∧
    (handle_contact b number name s).2.1.invalid_numbers_df
      = s.invalid_numbers_df
          ++ (invalidRowOf (number, name, (handle_contact b number name s).1)).toList ∧
    (handle_contact b number name s).2.1.failed_numbers_df
      = s.failed_numbers_df
          ++ (failedRowOf (number, name, (handle_contact b number name s).1)).toList := by
  rcases b with ⟨o, p, inv, sr, so⟩
  cases o <;> cases p <;> cases inv <;> cases sr <;> cases so <;>
    simp [handle_contact, sentRowOf, invalidRowOf, failedRowOf, add_contact_result]

lemma filterMap_cons_toList {α β : Type} (f : α → Option β) (a : α) (l : List α) :
    (f a).toList ++ l.filterMap f = (a :: l).filterMap f := by
  cases h : f a <;> simp [List.filterMap_cons, h]

lemma process_contacts_dfs (contacts : List (Str × Str)) (env : Nat → ContactBehavior)
    (i : Nat) (s : SenderState) :
    (process_contacts contacts env i s).2.sent_numbers_df
      = s.sent_numbers_df ++ (process_contacts contacts env i s).1.filterMap sentRowOf ∧
    (process_contacts contacts env i s).2.invalid_numbers_df
      = s.invalid_numbers_df ++ (process_contacts contacts env i s).1.filterMap invalidRowOf ∧
    (process_contacts contacts env i s).2.failed_numbers_df
      = s.failed_numbers_df ++ (process_contacts contacts env i s).1.filterMap failedRowOf := by
  induction contacts generalizing i s with
  | nil => simp [process_contacts]
  | cons c rest ih =>
    rcases c with ⟨num, name⟩
    simp only [process_contacts]
    have hd := handle_contact_dfs (env i) (format_number num) name s
    have ihh := ih (i + 1) (handle_contact (env i) (format_number num) name s).2.1
    refine ⟨?_, ?_, ?_⟩
    · rw [ihh.1, hd.1, ← filterMap_cons_toList, List.append_assoc]
    · rw [ihh.2.1, hd.2.1, ← filterMap_cons_toList, List.append_assoc]
    · rw [ihh.2.2, hd.2.2, ← filterMap_cons_toList, List.append_assoc]

/-- C9 (corrected), counterexample: a batch of one contact whose
processing raises while opening the chat ends with a master-log outcome
`error`, yet the failed-numbers table holds one row for it — the failed
table does not contain exactly the contacts whose master-log outcome is
`failed` (SendFailed), as the claim requires of each category table. -/
theorem C9_counterexample :
    ((process_contacts [([], [])] (fun _ => ⟨some [], none, false, none, false⟩) 0
        initialSenderState).2.failed_numbers_df).length = 1 ∧
    ((process_contacts [([], [])] (fun _ => ⟨some [], none, false, none, false⟩) 0
        initialSenderState).1.filter
          (fun r => r.2.2 = Status.failed)).length = 0 := by
  decide

/-- C9 (amended): after a completed batch run the three per-category
tables agree extensionally with projections of the single ordered master
results list, in the same relative order: the sent table is exactly the
`success` entries, the invalid table exactly the `invalid` (InvalidNumber)
entries and no others, while the failed table collects both the `failed`
and the `error` entries (not the `failed` ones alone, as claimed). -/
theorem C9_amended (contacts : List (Str × Str)) (env : Nat → ContactBehavior) :
    (process_contacts contacts env 0 initialSenderState).2.sent_numbers_df
      = (process_contacts contacts env 0 initialSenderState).1.filterMap sentRowOf ∧
    (process_contacts contacts env 0 initialSenderState).2.invalid_numbers_df
      = (process_contacts contacts env 0 initialSenderState).1.filterMap invalidRowOf ∧
    (process_contacts contacts env 0 initialSenderState).2.failed_numbers_df
      = (process_contacts contacts env 0 initialSenderState).1.filterMap failedRowOf := by
  have h := process_contacts_dfs contacts env 0 initialSenderState
  simpa [initialSenderState] using h

/-- C10 (confirmed): for every file-system state and every message-file
name whose file is missing, template loading returns the fixed default
template instead of raising, and the constructor's template list is total:
one template per configured file. -/
theorem C10_default_template (fs : Str → Option Str) (file_name : Str) (files : List Str)
    (h : fs file_name = none) :
    load_message_template fs file_name = defaultTemplate ∧
    (message_templates fs files).length = files.length := by
  constructor
  · simp [load_message_template, h]
  · simp [message_templates]

/-- C10 witness: the empty file system with the default message files. -/
theorem C10_default_template_witness :
    load_message_template (fun _ => none) "message1.txt".toList = defaultTemplate ∧
    (message_templates (fun _ => none)
        ["message1.txt".toList, "message2.txt".toList]).length = 2 :=
  C10_default_template (fun _ => none) "message1.txt".toList
    ["message1.txt".toList, "message2.txt".toList] rfl


end WhatBulk
